import Mathlib

/-!
Verification of the TDD evaluation and scoring pipeline of the
ai-development-monitor repository.

The Python sources are embedded shallowly:
* dictionaries with optional keys become structures with `Option` fields,
  and `dict.get(key, default)` becomes `Option.getD`;
* Python floats become `ℚ` (all the constants involved are exact decimals,
  and none of the verified properties depends on rounding of binary floats);
* regular-expression searches become hand-written executable scanners over
  `List Char`, one per concrete pattern of the source;
* code paths that perform input/output (subprocess execution) are taken as
  explicit function parameters where a verified property does not depend
  on them.
-/

/-! ## Basic string and scanning helpers -/

/-- Python word character for the ASCII fragment of the re module:
letters, digits and underscore. -/
def isWordChar (c : Char) : Bool :=
  c.isAlpha || c.isDigit || c = '_'

/-- Does the list start with the given pattern of characters? -/
def leadsWith : List Char → List Char → Bool
  | [], _ => true
  | _ :: _, [] => false
  | p :: ps, c :: cs => p = c && leadsWith ps cs

/-- Python substring test (the in operator on str): the pattern occurs
contiguously somewhere in the list, the empty pattern always occurs. -/
def containsCL (pat : List Char) : List Char → Bool
  | [] => leadsWith pat []
  | l@(_ :: t) => leadsWith pat l || containsCL pat t

/-- Characters of a string. -/
def strChars (s : String) : List Char :=
  s.data

/-- Python lower() on the ASCII fragment. -/
def lowerCL (l : List Char) : List Char :=
  l.map Char.toLower

/-- Case-insensitive substring test, as performed by re.search with
re.IGNORECASE on a pattern that is a literal lowercase word. -/
def containsCI (pat : String) (l : List Char) : Bool :=
  containsCL (lowerCL (strChars pat)) (lowerCL l)

/-- Case-sensitive substring test on strings. -/
def containsStr (pat s : String) : Bool :=
  containsCL (strChars pat) (strChars s)

/-! ## src/tdd_evaluator.py: combine_evaluation_results

Shallow embedding of the two evaluation dictionaries.  Every key that
combine_evaluation_results reads with dict.get is an `Option` field; a
missing key is `none`. -/

/-- The analysis sub-dictionary of the LLM evaluation.  An absent analysis
dictionary is represented by the all-none value, which is
indistinguishable from it under the dict.get reads of the source. -/
structure LlmAnalysis where
  hallucination_risk : Option ℚ
  recursive_risk : Option ℚ
  alignment_score : Option ℚ
  issues_detected : Option (List String)
  recommendations : Option (List String)

/-- The llm_evaluation input dictionary of combine_evaluation_results. -/
structure LlmEvaluation where
  analysis : LlmAnalysis
  accept : Option Bool
  reason : Option String

/-- The tdd_evaluation input dictionary of combine_evaluation_results.
The accept key defaults to None in the source, so an absent key and an
explicit None are both `none`. -/
structure TddEvaluation where
  tdd_score : Option ℚ
  accept : Option Bool
  test_quality : Option ℚ
  task_relevance : Option ℚ
  issues_detected : Option (List String)
  recommendations : Option (List String)
  detected_language : Option String

/-- The analysis part of the combined evaluation dictionary. -/
structure CombinedAnalysis where
  hallucination_risk : ℚ
  recursive_risk : ℚ
  alignment_score : ℚ
  tdd_score : ℚ
  issues_detected : List String
  recommendations : List String
  detected_language : Option String

/-- The combined evaluation dictionary returned by
combine_evaluation_results. -/
structure CombinedEvaluation where
  accept : Bool
  analysis : CombinedAnalysis
  reason : String

/-- Display-only rendering of a rational with two decimals, standing in
for the Python f-string format {:.2f} inside reason texts (the verified
properties never inspect reason strings). -/
def fmtQ2 (q : ℚ) : String :=
  let n : Int := round (q * 100)
  let a : Nat := n.natAbs
  (if n < 0 then "-" else "") ++ toString (a / 100) ++ "." ++
    (if a % 100 < 10 then "0" else "") ++ toString (a % 100)

/-- src/tdd_evaluator.py lines 346-421.  Combines the TDD and LLM
evaluations into the final accept decision and the combined dictionary. -/
def combine_evaluation_results (tdd : TddEvaluation) (llm : LlmEvaluation) :
    Bool × CombinedEvaluation :=
  let tdd_score := tdd.tdd_score.getD 0.5
  let llm_accept := llm.accept.getD false
  let hallucination_risk := llm.analysis.hallucination_risk.getD 0.5
  let recursive_risk := llm.analysis.recursive_risk.getD 0.5
  let alignment_score := llm.analysis.alignment_score.getD 0.5
  let issues := llm.analysis.issues_detected.getD [] ++ tdd.issues_detected.getD []
  let recs := llm.analysis.recommendations.getD [] ++ tdd.recommendations.getD []
  let fr : Bool × String :=
    match tdd.accept with
    | none => (llm_accept, llm.reason.getD "Based on LLM evaluation only")
    | some _ =>
      let test_quality := tdd.test_quality.getD 0.5
      let task_relevance := tdd.task_relevance.getD 0.7
      let tdd_weight : ℚ := if test_quality > 0.7 ∧ task_relevance > 0.7 then 0.8 else 0.7
      let llm_weight : ℚ := if test_quality > 0.7 ∧ task_relevance > 0.7 then 0.2 else 0.3
      let weighted_score := tdd_score * tdd_weight + alignment_score * llm_weight
      if hallucination_risk > 0.7 ∨ recursive_risk > 0.7 then
        (false, "High risk detected: hallucination=" ++ fmtQ2 hallucination_risk ++
          ", recursive=" ++ fmtQ2 recursive_risk)
      else
        (decide (weighted_score ≥ 0.6), "Combined evaluation: TDD score=" ++
          fmtQ2 tdd_score ++ ", alignment=" ++ fmtQ2 alignment_score)
  (fr.1,
    { accept := fr.1
      analysis :=
        { hallucination_risk := hallucination_risk
          recursive_risk := recursive_risk
          alignment_score := alignment_score
          tdd_score := tdd_score
          issues_detected := issues
          recommendations := recs
          detected_language := tdd.detected_language }
      reason := fr.2 })

/-! ## src/tdd_evaluator.py: evaluate_tdd_results, empty-input branch -/

/-- One element of the tdd_tests input list of evaluate_tdd_results. -/
structure TddTest where
  test_code : String
  implementation_code : Option String
  iteration : Nat

/-- The fields of the evaluation dictionary of evaluate_tdd_results that
the verified properties constrain. -/
structure TddEvalResult where
  tdd_score : ℚ
  issues_detected : List String
  recommendations : List String
  accept : Option Bool

/-- src/tdd_evaluator.py lines 21-44.  The guard on an empty test list is
embedded directly; the non-empty branch runs subprocess-based test
execution and is therefore taken as the explicit parameter
`evalNonempty`, which the verified property holds for every value of. -/
def evaluate_tdd_results
    (evalNonempty : List TddTest → String → String → TddEvalResult)
    (tdd_tests : List TddTest) (suggestion_code task_description : String) :
    TddEvalResult :=
  if tdd_tests.isEmpty then
    { tdd_score := 0.5
      issues_detected := ["No TDD tests ran"]
      recommendations := ["Run TDD tests to verify code quality"]
      accept := none }
  else evalNonempty tdd_tests suggestion_code task_description

/-! ## src/task_relevance.py

Scanners for the concrete regular expressions of the module, then the
three functions extract_key_terms, calculate_term_presence and
assess_task_relevance. -/

/-- Is the optional character a word character (absent characters at the
edges of the text count as non-word)? -/
def optWord (c : Option Char) : Bool :=
  match c with
  | none => false
  | some c => isWordChar c

/-- A word boundary of the re module sits between two characters of
different wordness. -/
def wbBoundary (a b : Option Char) : Bool :=
  optWord a != optWord b

/-- Match of the anchored pattern backslash-b term backslash-b at one
position, given the preceding character. -/
def wbAt (term : List Char) (prev : Option Char) (l : List Char) : Bool :=
  match term with
  | [] => wbBoundary prev l.head?
  | t0 :: _ =>
    leadsWith term l && wbBoundary prev (some t0) &&
      wbBoundary term.getLast? (l.drop term.length).head?

/-- Search driver for wbAt over all positions, threading the previous
character. -/
def wbSearchAux (term : List Char) : Option Char → List Char → Bool
  | prev, [] => wbAt term prev []
  | prev, l@(c :: t) => wbAt term prev l || wbSearchAux term (some c) t

/-- re.search of backslash-b escaped-term backslash-b in a text: the term
occurs somewhere with word boundaries on both sides. -/
def wbSearch (term l : List Char) : Bool :=
  wbSearchAux term none l

/-- One term of calculate_term_presence is present: the word-boundary
search or the plain substring test succeeds on the lowered text
(task_relevance.py line 137). -/
def termPresent (term : String) (textLower : List Char) : Bool :=
  wbSearch (strChars term) textLower || containsCL (strChars term) textLower

/-- src/task_relevance.py lines 118-140: proportion of the key terms
present in the text, 0.0 for an empty term set.  The Python set of terms
is embedded as a duplicate-free list (the only caller passes the
deduplicated result of extract_key_terms), and the present_terms subset
becomes a filter, so the cardinalities are the list lengths. -/
def calculate_term_presence (terms : List String) (text : String) : ℚ :=
  if terms = [] then 0
  else
    let textLower := lowerCL (strChars text)
    ((terms.filter fun t => termPresent t textLower).length : ℚ) /
      (terms.length : ℚ)

/-- Replacement of every character that is neither a word character nor
whitespace by a space: re.sub of the pattern caret-w-s-class to a space
(task_relevance.py line 84). -/
def cleanChar (c : Char) : Char :=
  if !(isWordChar c || c.isWhitespace) then ' ' else c

/-- Python str.split() with no argument: split on whitespace runs,
dropping empty pieces. -/
def splitWsAux (acc : List Char) : List Char → List (List Char)
  | [] => if acc.isEmpty then [] else [acc.reverse]
  | c :: t =>
    if c.isWhitespace then
      if acc.isEmpty then splitWsAux [] t else acc.reverse :: splitWsAux [] t
    else splitWsAux (c :: acc) t

/-- Python str.split() with no argument, producing strings. -/
def splitWs (l : List Char) : List String :=
  (splitWsAux [] l).map String.mk

/-- The common_words set of extract_key_terms (task_relevance.py lines
90-101), kept verbatim, including the duplicated entry. -/
def commonWords : List String :=
  ["the", "a", "an", "and", "or", "but", "if", "then", "else", "when",
   "of", "to", "in", "on", "at", "by", "for", "with", "about", "against",
   "between", "into", "through", "during", "before", "after", "above", "below",
   "from", "up", "down", "is", "am", "are", "was", "were", "be", "been", "being",
   "have", "has", "had", "do", "does", "did", "will", "would", "shall", "should",
   "can", "could", "may", "might", "must", "ought", "i", "you", "he", "she", "it",
   "we", "they", "this", "that", "these", "those", "who", "which", "all", "any",
   "both", "each", "few", "more", "most", "some", "such", "no", "nor", "not", "only",
   "own", "same", "so", "than", "too", "very", "just", "code", "function", "class",
   "method", "implement", "create", "make", "write", "should", "following", "using"]

/-- Greedy consumption of a maximal sequence of camel-case groups, each
an uppercase letter followed by one or more lowercase letters; returns
the consumed length and the number of groups.  Structural recursion on a
fuel argument, so that the definition evaluates by kernel reduction; the
fuel is always at least the list length, which suffices because every
group consumes at least one character. -/
def camelGroupsF : Nat → List Char → Nat × Nat
  | 0, _ => (0, 0)
  | _ + 1, [] => (0, 0)
  | fuel + 1, c :: t =>
    if c.isUpper then
      let lows := t.takeWhile Char.isLower
      if lows.isEmpty then (0, 0)
      else
        let r := camelGroupsF fuel (t.drop lows.length)
        (1 + lows.length + r.1, r.2 + 1)
    else (0, 0)

/-- Greedy consumption of camel-case groups over a whole list. -/
def camelGroups (l : List Char) : Nat × Nat :=
  camelGroupsF l.length l

/-- Match of the camel-case pattern upper lower-plus repeated at least
twice, at the head of the list; returns the matched run and its length.
The pattern has no word-boundary anchors, so a match may start inside a
longer identifier. -/
def camelMatchAt (l : List Char) : Option (List Char × Nat) :=
  match l with
  | [] => none
  | c :: t =>
    if c.isUpper then
      let lows := t.takeWhile Char.isLower
      if lows.isEmpty then none
      else
        let r := camelGroups (t.drop lows.length)
        if r.2 ≥ 1 then
          let total := 1 + lows.length + r.1
          some (l.take total, total)
        else none
    else none

/-- re.findall driver: collect non-overlapping leftmost matches, with
fuel bounded by the list length. -/
def findAllF {α : Type} (m : List Char → Option (α × Nat)) :
    Nat → List Char → List α
  | 0, _ => []
  | _ + 1, [] => []
  | fuel + 1, l@(_ :: t) =>
    match m l with
    | some (a, len) => a :: findAllF m fuel (l.drop (max 1 len))
    | none => findAllF m fuel t

/-- re.findall over a whole list. -/
def findAll {α : Type} (m : List Char → Option (α × Nat)) (l : List Char) :
    List α :=
  findAllF m l.length l

/-- re.findall driver that also threads the previous character, for
patterns with word-boundary anchors. -/
def findAllCtxF {α : Type} (m : Option Char → List Char → Option (α × Nat)) :
    Nat → Option Char → List Char → List α
  | 0, _, _ => []
  | _ + 1, _, [] => []
  | fuel + 1, prev, l@(c :: t) =>
    match m prev l with
    | some (a, len) =>
      a :: findAllCtxF m fuel ((l.take (max 1 len)).getLast?) (l.drop (max 1 len))
    | none => findAllCtxF m fuel (some c) t

/-- Context-threading re.findall over a whole list. -/
def findAllCtx {α : Type} (m : Option Char → List Char → Option (α × Nat))
    (l : List Char) : List α :=
  findAllCtxF m l.length none l

/-- Does the run parse as the tail of a snake-case identifier: one or
more groups of an underscore followed by one or more lowercase letters,
consuming the run exactly? -/
def snakeTailF : Nat → List Char → Bool
  | 0, _ => false
  | fuel + 1, '_' :: rest =>
    let lows := rest.takeWhile Char.isLower
    if lows.isEmpty then false
    else
      let r := rest.drop lows.length
      r.isEmpty || snakeTailF fuel r
  | _ + 1, _ => false

/-- Entry point of snakeTailF with sufficient fuel. -/
def snakeTail (l : List Char) : Bool :=
  snakeTailF l.length l

/-- Does the run parse as a full snake-case identifier lower-plus
followed by one or more underscore lower-plus groups? -/
def snakeShape (l : List Char) : Bool :=
  let first := l.takeWhile Char.isLower
  if first.isEmpty then false else snakeTail (l.drop first.length)

/-- Match of the word-bounded snake-case pattern at one position.  With
greedy character classes and word-boundary anchors, a match exists
exactly when the preceding character is non-word, the maximal run of
lowercase letters and underscores parses as a snake-case identifier, and
the following character is non-word. -/
def snakeMatchAt (prev : Option Char) (l : List Char) :
    Option (List Char × Nat) :=
  if optWord prev then none
  else
    let run := l.takeWhile fun c => c.isLower || c = '_'
    if run.isEmpty then none
    else if snakeShape run then
      if optWord (l.drop run.length).head? then none
      else some (run, run.length)
    else none

/-- src/task_relevance.py lines 73-116: extract key terms from a text.
The source lowercases the text before the punctuation cleanup, so the
camel-case scan on line 107 runs over the already-lowercased text.  The
Python result set is embedded as a deduplicated list. -/
def extract_key_terms (text : String) : List String :=
  let cleaned := (lowerCL (strChars text)).map cleanChar
  let words := splitWs cleaned
  let keyTerms := words.filter fun w => !(commonWords.contains w) && 2 < w.length
  let camel := (findAll camelMatchAt cleaned).map fun l => String.mk (lowerCL l)
  let snake := (findAllCtx snakeMatchAt cleaned).map String.mk
  (keyTerms ++ camel ++ snake).dedup

/-- The keyword table of assess_task_specific_patterns
(task_relevance.py lines 156-182); each test pattern of the source is an
alternation of literal words, kept as the list of its alternatives. -/
def taskPatternGroups : List (List String × List String) :=
  [(["stack", "queue", "linked list", "tree", "hash", "map", "set", "heap"],
    ["push", "pop", "enqueue", "dequeue", "insert", "remove", "add", "delete",
     "contains", "find"]),
   (["sort", "quick sort", "merge sort", "bubble sort", "heap sort"],
    ["sorted", "ascending", "descending", "order"]),
   (["api", "rest", "http", "endpoint", "request", "response", "fetch"],
    ["get", "post", "put", "delete", "response", "status", "json", "http",
     "api", "mock"]),
   (["file", "input", "output", "i/o", "read", "write", "stream"],
    ["file", "open", "close", "read", "write", "input", "output", "stream",
     "buffer"]),
   (["auth", "login", "password", "credential", "token", "jwt", "oauth"],
    ["auth", "login", "password", "token", "credential", "session", "jwt",
     "oauth"])]

/-- Walk of the keyword groups: the first group with a keyword present in
the lowered task description decides the result, 0.9 when a test pattern
also matches the test code case-insensitively and 0.5 otherwise. -/
def assessGroups : List (List String × List String) → List Char → List Char →
    Option ℚ
  | [], _, _ => none
  | (kws, pats) :: rest, taskL, testChars =>
    if kws.any fun k => containsCL (strChars k) taskL then
      some (if pats.any fun p => containsCI p testChars then 0.9 else 0.5)
    else assessGroups rest taskL testChars

/-- src/task_relevance.py lines 142-199. -/
def assess_task_specific_patterns (task_description test_code : String) :
    Option ℚ :=
  assessGroups taskPatternGroups (lowerCL (strChars task_description))
    (strChars test_code)

/-- src/task_relevance.py lines 14-71: relevance of the TDD tests and the
suggestion code to the task description. -/
def assess_task_relevance (tdd_tests : List TddTest)
    (suggestion_code task_description : String) : ℚ :=
  if task_description = "" ∨
      task_description.toLower ∈
        ["implement functionality", "modify code", "update code"] then 1
  else
    let task_terms := extract_key_terms task_description
    if task_terms = [] then 0.8
    else
      let all_test_code := String.intercalate " " (tdd_tests.map (·.test_code))
      let s1 := calculate_term_presence task_terms all_test_code
      let s2 := calculate_term_presence task_terms suggestion_code
      let scores := [s1, s2] ++
        (match assess_task_specific_patterns task_description all_test_code with
         | some s => [s]
         | none => [])
      if scores ≠ [] then min 1 (max 0.4 (scores.sum / (scores.length : ℚ)))
      else 0.7

/-! ## src/test_execution.py: parse_test_output

One executable scanner per concrete regular expression of the source.
Digit groups are greedy runs of digits followed by literal text, which
needs no backtracking because the character classes involved are
disjoint. -/

/-- Value of a run of decimal digits. -/
def digitsToNatAux (acc : Nat) : List Char → Nat
  | [] => acc
  | c :: t => digitsToNatAux (acc * 10 + (c.toNat - 48)) t

/-- Value of a run of decimal digits. -/
def digitsToNat (l : List Char) : Nat :=
  digitsToNatAux 0 l

/-- Match a non-empty digit group followed by a literal, returning the
group value and the remainder after the literal. -/
def matchNumLit (lit : String) (l : List Char) : Option (Nat × List Char) :=
  let ds := l.takeWhile Char.isDigit
  if ds.isEmpty then none
  else
    let rest := l.drop ds.length
    if leadsWith (strChars lit) rest then some (digitsToNat ds, rest.drop lit.length)
    else none

/-- re.search driver: first position where the matcher succeeds. -/
def searchScan {α : Type} (m : List Char → Option α) : List Char → Option α
  | [] => m []
  | l@(_ :: t) =>
    match m l with
    | some a => some a
    | none => searchScan m t

/-- re.search driver for boolean matchers. -/
def searchScanB (m : List Char → Bool) : List Char → Bool
  | [] => m []
  | l@(_ :: t) => m l || searchScanB m t

/-- Prefix test against an already-lowercased pattern, for case
insensitive literal matching. -/
def leadsWithCI : List Char → List Char → Bool
  | [], _ => true
  | _ :: _, [] => false
  | p :: ps, c :: cs => p = c.toLower && leadsWithCI ps cs

/-- Pytest summary: digits, literal passed, optional comma, whitespace,
digits, literal failed (test_execution.py line 419). -/
def pyPFAt (l : List Char) : Option (Nat × Nat) :=
  match matchNumLit " passed" l with
  | none => none
  | some (p, r1) =>
    let r2 := if r1.head? = some ',' then r1.drop 1 else r1
    let r3 := r2.dropWhile Char.isWhitespace
    match matchNumLit " failed" r3 with
    | none => none
    | some (f, _) => some (p, f)

/-- Pytest alternative summary: digits followed by literal passed
(test_execution.py line 429). -/
def pyPAt (l : List Char) : Option Nat :=
  match matchNumLit " passed" l with
  | none => none
  | some (p, _) => some p

/-- Within one line, first digit group followed by the literal total. -/
def jsNumTotal : List Char → Option Nat
  | [] => none
  | l@(_ :: t) =>
    match matchNumLit " total" l with
    | some (n, _) => some n
    | none => jsNumTotal t

/-- Within one line, first digit group followed by the literal failed
and comma whose remainder also yields a total count; continues scanning
on inner failure, mirroring regex backtracking. -/
def jsNumFailed : List Char → Option (Nat × Nat)
  | [] => none
  | l@(_ :: t) =>
    match matchNumLit " failed," l with
    | some (f, r) =>
      match jsNumTotal r with
      | some tt => some (f, tt)
      | none => jsNumFailed t
    | none => jsNumFailed t

/-- Within one line, first digit group followed by the literal passed
and comma whose remainder also yields failed and total counts. -/
def jsNumPassed : List Char → Option (Nat × Nat × Nat)
  | [] => none
  | l@(_ :: t) =>
    match matchNumLit " passed," l with
    | some (p, r) =>
      match jsNumFailed r with
      | some ft => some (p, ft.1, ft.2)
      | none => jsNumPassed t
    | none => jsNumPassed t

/-- Jest summary (test_execution.py line 439): the literal Tests colon,
then lazily expanded gaps and three digit groups, all confined to one
line because the dot of the pattern does not match a newline. -/
def jsAt (l : List Char) : Option (Nat × Nat × Nat) :=
  if leadsWith (strChars "Tests:") l then
    jsNumPassed ((l.drop 6).takeWhile (fun c => c != '\n'))
  else none

/-- Google-Test total line (test_execution.py line 449). -/
def cppTotalAt (l : List Char) : Option Nat :=
  if leadsWith (strChars "[==========]") l then
    match matchNumLit " tests" ((l.drop 12).dropWhile Char.isWhitespace) with
    | some (n, _) => some n
    | none => none
  else none

/-- Google-Test passed line (test_execution.py line 454); the final s of
the pattern is optional and captures nothing. -/
def cppPassedAt (l : List Char) : Option Nat :=
  if leadsWith (strChars "[  PASSED  ]") l then
    match matchNumLit " test" ((l.drop 12).dropWhile Char.isWhitespace) with
    | some (n, _) => some n
    | none => none
  else none

/-- JUnit summary (test_execution.py line 464). -/
def javaAt (l : List Char) : Option (Nat × Nat × Nat) :=
  if leadsWith (strChars "Tests run: ") l then
    match matchNumLit ", Failures: " (l.drop 11) with
    | some (t, r2) =>
      match matchNumLit ", Errors: " r2 with
      | some (fa, r3) =>
        let ds := r3.takeWhile Char.isDigit
        if ds.isEmpty then none else some (t, fa, digitsToNat ds)
      | none => none
    | none => none
  else none

/-- Generic count pattern of the fallback parser (test_execution.py
lines 479-489): digits, then whitespace or a hyphen, then one of the
given lowercase word alternatives case-insensitively (an optional
trailing s in the source patterns never affects the captured group). -/
def genWordAt (words : List String) (l : List Char) : Option Nat :=
  let ds := l.takeWhile Char.isDigit
  if ds.isEmpty then none
  else
    let rest := l.drop ds.length
    let rest2 : Option (List Char) :=
      match rest.head? with
      | some c =>
        if c.isWhitespace then some (rest.dropWhile Char.isWhitespace)
        else if c = '-' then some (rest.drop 1) else none
      | none => none
    match rest2 with
    | some r =>
      if words.any (fun w => leadsWithCI (strChars w) r) then some (digitsToNat ds)
      else none
    | none => none

/-- The all tests passed alternative of the success search
(test_execution.py line 495), case-insensitively. -/
def allTestsPassedAt (l : List Char) : Bool :=
  if leadsWithCI (strChars "all") l then
    let r := l.drop 3
    let ws := r.takeWhile Char.isWhitespace
    if ws.isEmpty then false
    else
      let r2 := r.drop ws.length
      if leadsWithCI (strChars "tests") r2 then
        let r3 := r2.drop 5
        let ws2 := r3.takeWhile Char.isWhitespace
        if ws2.isEmpty then false
        else leadsWithCI (strChars "passed") (r3.drop ws2.length)
      else false
  else false

/-- Search for the word success or the phrase all tests passed,
case-insensitively (test_execution.py line 495). -/
def successSearch (l : List Char) : Bool :=
  containsCI "success" l || searchScanB allTestsPassedAt l

/-- Does a line contain one of the error indicators of the error
extraction (test_execution.py line 509), case-insensitively? -/
def errLineB (l : List Char) : Bool :=
  containsCI "error" l || containsCI "fail" l || containsCI "exception" l ||
    containsCI "assertion" l || containsCI "failed" l

/-- Python strip() on the ASCII whitespace fragment. -/
def trimCL (l : List Char) : List Char :=
  ((l.dropWhile Char.isWhitespace).reverse.dropWhile Char.isWhitespace).reverse

/-- Split into lines at newline separators, keeping empty pieces. -/
def splitNlAux (acc : List Char) : List Char → List (List Char)
  | [] => [acc.reverse]
  | c :: t =>
    if c = '\n' then acc.reverse :: splitNlAux [] t
    else splitNlAux (c :: acc) t

/-- Python str.splitlines restricted to the newline separator: no line
for the empty string, and a trailing newline produces no extra empty
line (the rarer separators of the Python method, such as carriage
return and form feed, do not occur in the verified properties). -/
def splitLinesCL (l : List Char) : List (List Char) :=
  if l.isEmpty then []
  else
    let parts := splitNlAux [] l
    if l.getLast? = some '\n' then parts.dropLast else parts

/-- src/test_execution.py lines 26-46: the test execution result object.
The three counters are integers because the cpp and java branches
compute them by subtraction, which may go below zero in Python. -/
structure TestExecutionResult where
  success : Bool
  total_tests : Int
  passed_tests : Int
  failed_tests : Int
  execution_time : ℚ
  output : String
  errors : List String
  test_file_path : String
  implementation_file_path : String

/-- The default-initialized result of parse_test_output
(test_execution.py lines 407-413). -/
def initResult (output tf ifp : String) (et : ℚ) : TestExecutionResult :=
  { success := false
    total_tests := 0
    passed_tests := 0
    failed_tests := 0
    execution_time := et
    output := output
    errors := []
    test_file_path := tf
    implementation_file_path := ifp }

/-- The language-specific parsing stage of parse_test_output
(test_execution.py lines 415-473). -/
def parseLang (language : String) (out : List Char) (r0 : TestExecutionResult) :
    TestExecutionResult :=
  if language = "python" then
    match searchScan pyPFAt out with
    | some (p, f) =>
      { r0 with passed_tests := (p : Int), failed_tests := (f : Int),
                total_tests := (p : Int) + (f : Int), success := decide (f = 0) }
    | none =>
      match searchScan pyPAt out with
      | some p =>
        { r0 with passed_tests := (p : Int), total_tests := (p : Int), success := true }
      | none => r0
  else if language = "javascript" ∨ language = "typescript" then
    match searchScan jsAt out with
    | some (p, f, t) =>
      { r0 with passed_tests := (p : Int), failed_tests := (f : Int),
                total_tests := (t : Int), success := decide (f = 0) }
    | none => r0
  else if language = "cpp" then
    match searchScan cppTotalAt out with
    | some t =>
      let p : Int := ((searchScan cppPassedAt out).map Int.ofNat).getD 0
      let f : Int := (t : Int) - p
      { r0 with total_tests := (t : Int), passed_tests := p, failed_tests := f,
                success := decide (f = 0) }
    | none => r0
  else if language = "java" then
    match searchScan javaAt out with
    | some (t, fa, er) =>
      let f : Int := (fa : Int) + (er : Int)
      { r0 with total_tests := (t : Int), failed_tests := f,
                passed_tests := (t : Int) - f, success := decide (f = 0) }
    | none => r0
  else r0

/-- The generic fallback stage of parse_test_output (test_execution.py
lines 475-503), entered only when the language stage left the total at
zero. -/
def parseGeneric (out : List Char) (r1 : TestExecutionResult) :
    TestExecutionResult :=
  if r1.total_tests = 0 then
    let r2a :=
      match searchScan (genWordAt ["test", "spec"]) out with
      | some n => { r1 with total_tests := (n : Int) }
      | none => r1
    let r2b :=
      match searchScan (genWordAt ["passing", "passed", "ok"]) out with
      | some n => { r2a with passed_tests := (n : Int) }
      | none => r2a
    let r2c :=
      match searchScan (genWordAt ["failing", "failed", "error", "broken"]) out with
      | some n => { r2b with failed_tests := (n : Int) }
      | none => r2b
    if 0 < r2c.total_tests then
      if r2c.passed_tests = 0 ∧ r2c.failed_tests = 0 then
        if successSearch out then
          { r2c with passed_tests := r2c.total_tests, success := true }
        else r2c
      else if 0 < r2c.passed_tests ∧ r2c.failed_tests = 0 then
        let f := r2c.total_tests - r2c.passed_tests
        { r2c with failed_tests := f, success := decide (f = 0) }
      else if 0 < r2c.failed_tests ∧ r2c.passed_tests = 0 then
        { r2c with passed_tests := r2c.total_tests - r2c.failed_tests,
                   success := decide (r2c.failed_tests = 0) }
      else r2c
    else r2c
  else r1

/-- The error extraction stage of parse_test_output (test_execution.py
lines 505-511): on failure, the first ten stripped lines containing an
error indicator. -/
def attachErrors (r : TestExecutionResult) : TestExecutionResult :=
  if !r.success then
    { r with errors :=
        (((splitLinesCL (strChars r.output)).filter errLineB).map
          (fun lc => String.mk (trimCL lc))).take 10 }
  else r

/-- src/test_execution.py lines 391-513: parse the captured output of a
test command into a TestExecutionResult. -/
def parse_test_output (language output tf ifp : String) (execution_time : ℚ) :
    TestExecutionResult :=
  attachErrors (parseGeneric (strChars output)
    (parseLang language (strChars output) (initResult output tf ifp execution_time)))

/-! ## src/test_execution.py: count_tests and simulate_test_execution -/

/-- re.findall counting driver: number of non-overlapping leftmost
matches, with fuel bounded by the list length (every match consumes at
least one character). -/
def countScanF (m : List Char → Option Nat) : Nat → List Char → Nat
  | 0, _ => 0
  | _ + 1, [] => 0
  | fuel + 1, l@(_ :: t) =>
    match m l with
    | some len => 1 + countScanF m fuel (l.drop (max 1 len))
    | none => countScanF m fuel t

/-- re.findall counting over a whole list. -/
def countScan (m : List Char → Option Nat) (l : List Char) : Nat :=
  countScanF m l.length l

/-- Pytest-style test function: def, whitespace, the literal test
underscore, a word run, optional whitespace, an opening parenthesis. -/
def pyTestDefAt (l : List Char) : Option Nat :=
  if leadsWith (strChars "def") l then
    let r := l.drop 3
    let ws := r.takeWhile Char.isWhitespace
    if ws.isEmpty then none
    else
      let r2 := r.drop ws.length
      if leadsWith (strChars "test_") r2 then
        let r3 := r2.drop 5
        let wr := r3.takeWhile isWordChar
        if wr.isEmpty then none
        else
          let r4 := r3.drop wr.length
          let ws2 := r4.takeWhile Char.isWhitespace
          if (r4.drop ws2.length).head? = some '(' then
            some (3 + ws.length + 5 + wr.length + ws2.length + 1)
          else none
      else none
  else none

/-- Unittest-style assertion: the literal self dot assert, a word run,
an opening parenthesis. -/
def selfAssertAt (l : List Char) : Option Nat :=
  if leadsWith (strChars "self.assert") l then
    let r := l.drop 11
    let wr := r.takeWhile isWordChar
    if wr.isEmpty then none
    else if (r.drop wr.length).head? = some '(' then some (11 + wr.length + 1)
    else none
  else none

/-- Jest or Mocha style call: a keyword, optional whitespace, an opening
parenthesis, optional whitespace, a quote character. -/
def callQuoteAt (kw : String) (l : List Char) : Option Nat :=
  if leadsWith (strChars kw) l then
    let r := l.drop kw.length
    let ws := r.takeWhile Char.isWhitespace
    let r2 := r.drop ws.length
    if r2.head? = some '(' then
      let r3 := r2.drop 1
      let ws2 := r3.takeWhile Char.isWhitespace
      match (r3.drop ws2.length).head? with
      | some c =>
        if c = '\'' ∨ c = '"' then some (kw.length + ws.length + 1 + ws2.length + 1)
        else none
      | none => none
    else none
  else none

/-- Plain literal occurrence. -/
def litAt (lit : String) (l : List Char) : Option Nat :=
  if leadsWith (strChars lit) l then some lit.length else none

/-- JUnit-style test method: public, whitespace, void, whitespace, the
literal test, a non-empty word run. -/
def publicVoidTestAt (l : List Char) : Option Nat :=
  if leadsWith (strChars "public") l then
    let r := l.drop 6
    let ws := r.takeWhile Char.isWhitespace
    if ws.isEmpty then none
    else
      let r2 := r.drop ws.length
      if leadsWith (strChars "void") r2 then
        let r3 := r2.drop 4
        let ws2 := r3.takeWhile Char.isWhitespace
        if ws2.isEmpty then none
        else
          let r4 := r3.drop ws2.length
          if leadsWith (strChars "test") r4 then
            let wr := (r4.drop 4).takeWhile isWordChar
            if wr.isEmpty then none
            else some (6 + ws.length + 4 + ws2.length + 4 + wr.length)
          else none
      else none
  else none

/-- Google-Test macro call: a keyword, optional whitespace, an opening
parenthesis. -/
def cppTestCallAt (kw : String) (l : List Char) : Option Nat :=
  if leadsWith (strChars kw) l then
    let r := l.drop kw.length
    let ws := r.takeWhile Char.isWhitespace
    if (r.drop ws.length).head? = some '(' then some (kw.length + ws.length + 1)
    else none
  else none

/-- Case-insensitive assert, expect or should, for the assertion-density
fallback of count_tests (test_execution.py line 618). -/
def aesAt (l : List Char) : Option Nat :=
  if leadsWithCI (strChars "assert") l then some 6
  else if leadsWithCI (strChars "expect") l then some 6
  else if leadsWithCI (strChars "should") l then some 6
  else none

/-- src/test_execution.py lines 573-625: count the tests in a blob of
test code, with the assertion-count fallback and the absolute floor of
one. -/
def count_tests (test_code language : String) : Nat :=
  let tc := strChars test_code
  let lang := language.toLower
  let count :=
    if lang = "python" then countScan pyTestDefAt tc + countScan selfAssertAt tc
    else if lang = "javascript" ∨ lang = "typescript" then
      countScan (callQuoteAt "it") tc + countScan (callQuoteAt "test") tc
    else if lang = "java" then
      countScan (litAt "@Test") tc + countScan publicVoidTestAt tc
    else if lang = "cpp" then
      countScan (cppTestCallAt "TEST") tc + countScan (cppTestCallAt "TEST_F") tc
    else countScan (litAt "test") tc + countScan (litAt "assert") tc
  let count2 :=
    if count = 0 then
      let assertion_count := countScan aesAt tc
      if 0 < assertion_count then max 1 (assertion_count / 2) else count
    else count
  max 1 count2

/-! ## src/test_quality_metrics.py: the shape of the metrics dictionary

The fourteen numeric heuristics of the module feed only the values of
the returned dictionary; its key set is fixed by the two return
statements of evaluate_test_quality (lines 156-165 and 229-244).  The
values of the main branch are taken as parameters because the verified
property about simulate_test_execution depends only on the keys. -/

/-- A value stored in the metrics dictionary. -/
inductive MVal : Type
  | num (q : ℚ)
  | str (s : String)
  | list (l : List String)

/-- The computed sub-metrics of the main branch of
evaluate_test_quality, abstracted as parameters. -/
structure MainQualityVals where
  completeness : ℚ
  variety : ℚ
  edge_case : ℚ
  assertion_density : ℚ
  normalized_assertion : ℚ
  readability : ℚ
  isolation : ℚ
  task_alignment : ℚ
  overall : ℚ
  detected_language : String
  strengths : List String
  weaknesses : List String
  test_count : ℚ
  assertion_count : ℚ

/-- The key-value entries of the dictionary returned by
evaluate_test_quality, for both branches of the length guard
(test_quality_metrics.py lines 154-165 and 229-244). -/
def evaluate_test_quality_entries (test_code : String) (v : MainQualityVals) :
    List (String × MVal) :=
  if test_code = "" ∨ (trimCL (strChars test_code)).length < 10 then
    [("completeness_score", .num 0), ("variety_score", .num 0),
     ("edge_case_score", .num 0), ("assertion_density", .num 0),
     ("readability_score", .num 0), ("overall_quality", .num 0),
     ("strengths", .list []),
     ("weaknesses", .list ["Tests appear to be empty or minimal"])]
  else
    [("completeness_score", .num v.completeness), ("variety_score", .num v.variety),
     ("edge_case_score", .num v.edge_case),
     ("assertion_density", .num v.assertion_density),
     ("normalized_assertion_density", .num v.normalized_assertion),
     ("readability_score", .num v.readability),
     ("test_isolation_score", .num v.isolation),
     ("task_alignment_score", .num v.task_alignment),
     ("overall_quality", .num v.overall),
     ("detected_language", .str v.detected_language),
     ("strengths", .list v.strengths), ("weaknesses", .list v.weaknesses),
     ("test_count", .num v.test_count),
     ("assertion_count", .num v.assertion_count)]

/-- Dictionary lookup, first matching key. -/
def dictFind (k : String) : List (String × MVal) → Option MVal
  | [] => none
  | (k2, v) :: rest => if k2 = k then some v else dictFind k rest

/-- The quality score read by simulate_test_execution
(test_execution.py line 543): the value of the key score with default
0.5.  A present non-numeric value cannot occur because the dictionary
never holds the key at all. -/
def simulate_quality_of (d : List (String × MVal)) : ℚ :=
  match dictFind "score" d with
  | some (.num q) => q
  | _ => 0.5

/-- Python int() truncation toward zero on a rational. -/
def pyInt (q : ℚ) : Int :=
  if q < 0 then -(Int.floor (-q)) else Int.floor q

/-- src/test_execution.py lines 515-563, the computation inside the try
block once the two files have been read back: derive simulated pass and
fail counts from the quality dictionary of the test code, the test
count, and the iteration number. -/
def simulate_test_execution_core (test_quality : List (String × MVal))
    (test_code language : String) (iteration : Nat) (tf ifp : String) :
    TestExecutionResult :=
  let quality_score := simulate_quality_of test_quality
  let test_count := count_tests test_code language
  let pass_fraction := min (0.95 : ℚ) (quality_score + (iteration : ℚ) * 0.1)
  let passed := pyInt ((test_count : ℚ) * pass_fraction)
  let failed := (test_count : Int) - passed
  { success := decide (failed = 0)
    total_tests := (test_count : Int)
    passed_tests := passed
    failed_tests := failed
    execution_time := 0.1 * (test_count : ℚ)
    output := "Simulated test execution for " ++ language ++ " - " ++
      toString passed ++ "/" ++ toString test_count ++ " tests passed"
    errors := []
    test_file_path := tf
    implementation_file_path := ifp }

/-! ## src/test_quality_metrics.py: the readability metric

Full embedding of the private readability computation (lines 558-688),
needed because its indentation-consistency step divides by the modal
indent size. -/

/-- Comment-line starters per language (test_quality_metrics.py lines
580-590): on an already stripped line the anchored patterns reduce to
prefix tests. -/
def commentStartsFor (language : String) : List String :=
  if language = "python" then ["#", "\"\"\""]
  else if language = "javascript" ∨ language = "typescript" ∨ language = "java" ∨
      language = "cpp" ∨ language = "csharp" ∨ language = "rust" ∨
      language = "go" then ["//", "/*"]
  else ["#", "//", "/*", "\"\"\""]

/-- Python test-name pattern: def, whitespace, the literal test
underscore, the captured word run. -/
def pyNameAt (l : List Char) : Option (List Char × Nat) :=
  if leadsWith (strChars "def") l then
    let r := l.drop 3
    let ws := r.takeWhile Char.isWhitespace
    if ws.isEmpty then none
    else
      let r2 := r.drop ws.length
      if leadsWith (strChars "test_") r2 then
        let wr := (r2.drop 5).takeWhile isWordChar
        if wr.isEmpty then none
        else some (wr, 3 + ws.length + 5 + wr.length)
      else none
  else none

/-- JavaScript test-name pattern: test or it, optional whitespace, an
opening parenthesis, optional whitespace, a quote, the captured non-empty
run of non-quote characters. -/
def jsNameAt (l : List Char) : Option (List Char × Nat) :=
  let kw : Option Nat :=
    if leadsWith (strChars "test") l then some 4
    else if leadsWith (strChars "it") l then some 2
    else none
  match kw with
  | none => none
  | some k =>
    let r := l.drop k
    let ws := r.takeWhile Char.isWhitespace
    let r2 := r.drop ws.length
    if r2.head? = some '(' then
      let r3 := r2.drop 1
      let ws2 := r3.takeWhile Char.isWhitespace
      let r4 := r3.drop ws2.length
      match r4.head? with
      | some c =>
        if c = '\'' ∨ c = '"' then
          let grp := (r4.drop 1).takeWhile fun x => x != '\'' && x != '"'
          if grp.isEmpty then none
          else some (grp, k + ws.length + 1 + ws2.length + 1 + grp.length)
        else none
      | none => none
    else none

/-- Keyword alternation helper: the first of the given literals leading
the list, with its length. -/
def kwAt (kws : List String) (l : List Char) : Option Nat :=
  match kws with
  | [] => none
  | k :: rest => if leadsWith (strChars k) l then some k.length else kwAt rest l

/-- Java test-name pattern: an access modifier, whitespace, void,
whitespace, the literal test, the captured word run. -/
def javaNameAt (l : List Char) : Option (List Char × Nat) :=
  match kwAt ["public", "private", "protected"] l with
  | none => none
  | some k =>
    let r := l.drop k
    let ws := r.takeWhile Char.isWhitespace
    if ws.isEmpty then none
    else
      let r2 := r.drop ws.length
      if leadsWith (strChars "void") r2 then
        let r3 := r2.drop 4
        let ws2 := r3.takeWhile Char.isWhitespace
        if ws2.isEmpty then none
        else
          let r4 := r3.drop ws2.length
          if leadsWith (strChars "test") r4 then
            let wr := (r4.drop 4).takeWhile isWordChar
            if wr.isEmpty then none
            else some (wr, k + ws.length + 4 + ws2.length + 4 + wr.length)
          else none
      else none

/-- Google-Test test-name pattern: TEST, optional whitespace, an opening
parenthesis, a run without commas, a comma, optional whitespace, the
captured word run. -/
def cppNameAt (l : List Char) : Option (List Char × Nat) :=
  if leadsWith (strChars "TEST") l then
    let r := l.drop 4
    let ws := r.takeWhile Char.isWhitespace
    let r2 := r.drop ws.length
    if r2.head? = some '(' then
      let r3 := r2.drop 1
      let nc := r3.takeWhile fun c => c != ','
      let r4 := r3.drop nc.length
      if r4.head? = some ',' then
        let r5 := r4.drop 1
        let ws2 := r5.takeWhile Char.isWhitespace
        let wr := (r5.drop ws2.length).takeWhile isWordChar
        if wr.isEmpty then none
        else some (wr, 4 + ws.length + 1 + nc.length + 1 + ws2.length + wr.length)
      else none
    else none
  else none

/-- C-sharp test-name pattern: public, whitespace, void, whitespace, the
literal Test, the captured word run. -/
def csNameAt (l : List Char) : Option (List Char × Nat) :=
  if leadsWith (strChars "public") l then
    let r := l.drop 6
    let ws := r.takeWhile Char.isWhitespace
    if ws.isEmpty then none
    else
      let r2 := r.drop ws.length
      if leadsWith (strChars "void") r2 then
        let r3 := r2.drop 4
        let ws2 := r3.takeWhile Char.isWhitespace
        if ws2.isEmpty then none
        else
          let r4 := r3.drop ws2.length
          if leadsWith (strChars "Test") r4 then
            let wr := (r4.drop 4).takeWhile isWordChar
            if wr.isEmpty then none
            else some (wr, 6 + ws.length + 4 + ws2.length + 4 + wr.length)
          else none
      else none
  else none

/-- Rust test-name pattern: fn, whitespace, the literal test underscore,
the captured word run. -/
def rustNameAt (l : List Char) : Option (List Char × Nat) :=
  if leadsWith (strChars "fn") l then
    let r := l.drop 2
    let ws := r.takeWhile Char.isWhitespace
    if ws.isEmpty then none
    else
      let r2 := r.drop ws.length
      if leadsWith (strChars "test_") r2 then
        let wr := (r2.drop 5).takeWhile isWordChar
        if wr.isEmpty then none
        else some (wr, 2 + ws.length + 5 + wr.length)
      else none
  else none

/-- Fallback test-name pattern test or Test, an optional underscore, the
captured word run; the optional underscore backtracks when no word
character follows it, in which case the underscore itself is the
captured group. -/
def unkNameAt (l : List Char) : Option (List Char × Nat) :=
  let kw : Option Nat :=
    if leadsWith (strChars "test") l then some 4
    else if leadsWith (strChars "Test") l then some 4
    else none
  match kw with
  | none => none
  | some k =>
    let r := l.drop k
    if r.head? = some '_' then
      let g := (r.drop 1).takeWhile isWordChar
      if g.isEmpty then
        let g2 := r.takeWhile isWordChar
        if g2.isEmpty then none else some (g2, k + g2.length)
      else some (g, k + 1 + g.length)
    else
      let g := r.takeWhile isWordChar
      if g.isEmpty then none else some (g, k + g.length)

/-- The captured test names of the readability metric, by language
(test_quality_metrics.py lines 608-621); the table has no entry for go,
which therefore uses the fallback pattern. -/
def testNamesFor (language : String) (tc : List Char) : List (List Char) :=
  if language = "python" then findAll pyNameAt tc
  else if language = "javascript" ∨ language = "typescript" then findAll jsNameAt tc
  else if language = "java" then findAll javaNameAt tc
  else if language = "cpp" then findAll cppNameAt tc
  else if language = "csharp" then findAll csNameAt tc
  else if language = "rust" then findAll rustNameAt tc
  else findAll unkNameAt tc

/-- An adjacent uppercase-lowercase pair somewhere in the name. -/
def hasUpperLower : List Char → Bool
  | a :: b :: t => (a.isUpper && b.isLower) || hasUpperLower (b :: t)
  | _ => false

/-- A word run containing the literal Test at an index of at least one,
as produced by the backtracking of a word-class-plus followed by that
literal inside a single identifier. -/
def wordRunThenTest (l : List Char) : Bool :=
  let wr := l.takeWhile isWordChar
  containsCL (strChars "Test") (wr.drop 1)

/-- Python test-grouping pattern: class, whitespace, an identifier
containing Test after its first character. -/
def pyOrgAt (l : List Char) : Bool :=
  if leadsWith (strChars "class") l then
    let r := l.drop 5
    let ws := r.takeWhile Char.isWhitespace
    if ws.isEmpty then false else wordRunThenTest (r.drop ws.length)
  else false

/-- JavaScript test-grouping pattern: describe, optional whitespace, an
opening parenthesis. -/
def describeOrgAt (l : List Char) : Bool :=
  if leadsWith (strChars "describe") l then
    let r := l.drop 8
    (r.drop (r.takeWhile Char.isWhitespace).length).head? = some '('
  else false

/-- Java test-grouping pattern: public or private, whitespace, class,
whitespace, an identifier containing Test after its first character. -/
def javaOrgAt (l : List Char) : Bool :=
  match kwAt ["public", "private"] l with
  | none => false
  | some k =>
    let r := l.drop k
    let ws := r.takeWhile Char.isWhitespace
    if ws.isEmpty then false
    else
      let r2 := r.drop ws.length
      if leadsWith (strChars "class") r2 then
        let r3 := r2.drop 5
        let ws2 := r3.takeWhile Char.isWhitespace
        if ws2.isEmpty then false else wordRunThenTest (r3.drop ws2.length)
      else false

/-- C-sharp test-grouping pattern: public, whitespace, class,
whitespace, an identifier containing Test after its first character. -/
def csOrgAt (l : List Char) : Bool :=
  if leadsWith (strChars "public") l then
    let r := l.drop 6
    let ws := r.takeWhile Char.isWhitespace
    if ws.isEmpty then false
    else
      let r2 := r.drop ws.length
      if leadsWith (strChars "class") r2 then
        let r3 := r2.drop 5
        let ws2 := r3.takeWhile Char.isWhitespace
        if ws2.isEmpty then false else wordRunThenTest (r3.drop ws2.length)
      else false
  else false

/-- Rust test-grouping pattern: mod, whitespace, the literal tests. -/
def rustOrgAt (l : List Char) : Bool :=
  if leadsWith (strChars "mod") l then
    let r := l.drop 3
    let ws := r.takeWhile Char.isWhitespace
    if ws.isEmpty then false else leadsWith (strChars "tests") (r.drop ws.length)
  else false

/-- Fallback test-grouping pattern: class, describe or module,
whitespace, a word character. -/
def unkOrgAt (l : List Char) : Bool :=
  match kwAt ["class", "describe", "module"] l with
  | none => false
  | some k =>
    let r := l.drop k
    let ws := r.takeWhile Char.isWhitespace
    if ws.isEmpty then false
    else
      match (r.drop ws.length).head? with
      | some c => isWordChar c
      | none => false

/-- Presence of a test-grouping construct, by language
(test_quality_metrics.py lines 635-648). -/
def orgFor (language : String) (tc : List Char) : Bool :=
  if language = "python" then searchScanB pyOrgAt tc
  else if language = "javascript" ∨ language = "typescript" then
    searchScanB describeOrgAt tc
  else if language = "java" then searchScanB javaOrgAt tc
  else if language = "cpp" then searchScanB (fun l => (cppTestCallAt "TEST_F" l).isSome) tc
  else if language = "csharp" then searchScanB csOrgAt tc
  else if language = "rust" then searchScanB rustOrgAt tc
  else searchScanB unkOrgAt tc

/-- The most common element, breaking ties by first occurrence, as
collections.Counter.most_common does with its stable sort over
insertion-ordered counts. -/
def mostCommonFirst (l : List Nat) : Nat :=
  (l.foldl (fun acc x =>
    match acc with
    | none => some x
    | some b => if l.count x > l.count b then some x else some b) none).getD 0

/-- The weighted readability score (test_quality_metrics.py lines
674-683). -/
def readabilityScoreOf (comment_ratio descriptive_ratio : ℚ) (organized : Bool)
    (line_length_score indent_consistency : ℚ) : ℚ :=
  min 1 (comment_ratio * 5) * 0.25 + descriptive_ratio * 0.25 +
    (if organized then 1 else 0) * 0.2 + line_length_score * 0.15 +
    indent_consistency * 0.15

/-- src/test_quality_metrics.py lines 558-688: the readability metric.
The returned score is the value of the result dictionary's score key;
the indentation-consistency step takes each indent size modulo the modal
indent size, which raises a ZeroDivisionError in Python whenever the
modal indent is zero and at least one non-blank line exists, embedded
here as the error case. -/
def calculate_readability (test_code language : String) : Except String ℚ :=
  let lines := splitLinesCL (strChars test_code)
  let total_lines := lines.length
  if total_lines = 0 then .ok 0
  else
    let starts := commentStartsFor language
    let comment_lines := (lines.filter fun line =>
      starts.any fun p => leadsWith (strChars p) (trimCL line)).length
    let comment_ratio : ℚ := (comment_lines : ℚ) / (total_lines : ℚ)
    let test_names := testNamesFor language (strChars test_code)
    let descriptive_count := (test_names.filter fun n =>
      decide (8 ≤ n.length) || n.elem '_' || hasUpperLower n).length
    let descriptive_ratio : ℚ :=
      if test_names.length ≠ 0 then (descriptive_count : ℚ) / (test_names.length : ℚ)
      else 0
    let organized := orgFor language (strChars test_code)
    let avg_line_length : ℚ := ((lines.map List.length).sum : ℚ) / (total_lines : ℚ)
    let line_length_score : ℚ := max 0 (min 1 (2 - avg_line_length / 80))
    let indent_sizes := (lines.filter fun line => !(trimCL line).isEmpty).map
      fun line => (line.takeWhile Char.isWhitespace).length
    if indent_sizes.isEmpty then
      .ok (readabilityScoreOf comment_ratio descriptive_ratio organized
        line_length_score 1)
    else
      let mode_indent := mostCommonFirst indent_sizes
      if mode_indent = 0 then
        .error "ZeroDivisionError: integer division or modulo by zero"
      else
        let consistent := (indent_sizes.filter fun sz => sz % mode_indent == 0).length
        .ok (readabilityScoreOf comment_ratio descriptive_ratio organized
          line_length_score ((consistent : ℚ) / (indent_sizes.length : ℚ)))

/-! ## Theorems -/

/-- Concrete TDD evaluation whose accept flag is None, used to refute the
unconditional form of the risk veto. -/
def riskVetoNoneTdd : TddEvaluation :=
  { tdd_score := some 1
    accept := none
    test_quality := some 1
    task_relevance := some 1
    issues_detected := none
    recommendations := none
    detected_language := none }

/-- Concrete LLM evaluation with hallucination risk 0.71 and accept true. -/
def riskVetoNoneLlm : LlmEvaluation :=
  { analysis :=
      { hallucination_risk := some 0.71
        recursive_risk := some 0.5
        alignment_score := some 1
        issues_detected := none
        recommendations := none }
    accept := some true
    reason := none }

/-- Claim C1 is false as stated: with the TDD accept flag None, the LLM
accept flag true, and hallucination risk 0.71 greater than 0.7,
combine_evaluation_results returns final accept true, so high risk does
not force rejection regardless of the tdd accept flag. -/
theorem combine_risk_veto_fails_for_none_tdd_accept :
    (0.71 : ℚ) > 0.7 ∧
      (combine_evaluation_results riskVetoNoneTdd riskVetoNoneLlm).1 = true := by
  constructor
  · norm_num
  · rfl

/-- Claim C1 (amended): whenever the TDD evaluation's accept flag is not
None, combine_evaluation_results returns final accept false if the LLM
analysis has hallucination risk above 0.7 or recursive risk above 0.7,
regardless of the tdd score, alignment score, and llm accept values. -/
theorem combine_risk_veto (tdd : TddEvaluation) (llm : LlmEvaluation) (b : Bool)
    (haccept : tdd.accept = some b)
    (hrisk : llm.analysis.hallucination_risk.getD 0.5 > 0.7 ∨
      llm.analysis.recursive_risk.getD 0.5 > 0.7) :
    (combine_evaluation_results tdd llm).1 = false := by
  simp only [combine_evaluation_results, haccept]
  rw [if_pos hrisk]

/-- Witness for combine_risk_veto at a concrete input with accept true,
tdd score 1, alignment 1 and hallucination risk 0.71. -/
theorem combine_risk_veto_witness :
    ({ riskVetoNoneTdd with accept := some true } : TddEvaluation).accept = some true ∧
      (combine_evaluation_results { riskVetoNoneTdd with accept := some true }
        riskVetoNoneLlm).1 = false :=
  ⟨rfl, combine_risk_veto _ _ true rfl (Or.inl (by norm_num [riskVetoNoneLlm]))⟩

/-- Claim C4: when the TDD evaluation's accept field is None,
combine_evaluation_results returns exactly the LLM evaluation's accept
flag, for all values of the other fields. -/
theorem combine_passthrough_when_no_tdd (tdd : TddEvaluation) (llm : LlmEvaluation)
    (h : tdd.accept = none) :
    (combine_evaluation_results tdd llm).1 = llm.accept.getD false := by
  simp only [combine_evaluation_results, h]

/-- Witness for combine_passthrough_when_no_tdd: accept None with the LLM
accept flag true passes through as true. -/
theorem combine_passthrough_when_no_tdd_witness :
    riskVetoNoneTdd.accept = none ∧
      (combine_evaluation_results riskVetoNoneTdd riskVetoNoneLlm).1 =
        riskVetoNoneLlm.accept.getD false :=
  ⟨rfl, combine_passthrough_when_no_tdd riskVetoNoneTdd riskVetoNoneLlm rfl⟩

/-- Claim C6: called with an empty list of TDD tests, for every
suggestion code, task description, and every behavior of the non-empty
branch, evaluate_tdd_results returns exactly the neutral result with
tdd score 0.5, accept None and the single issue "No TDD tests ran". -/
theorem evaluate_tdd_results_empty_neutral
    (evalNonempty : List TddTest → String → String → TddEvalResult)
    (suggestion_code task_description : String) :
    evaluate_tdd_results evalNonempty [] suggestion_code task_description =
      { tdd_score := 0.5
        issues_detected := ["No TDD tests ran"]
        recommendations := ["Run TDD tests to verify code quality"]
        accept := none } := rfl

/-- Claim C7 is false as stated: with the term set containing exactly
"Foo" and the text "Foo", every term literally appears in the text as a
substring, yet calculate_term_presence returns 0, not 1.0, because the
source lowercases the text but not the terms. -/
theorem calculate_term_presence_case_mismatch :
    containsStr "Foo" "Foo" = true ∧
      calculate_term_presence ["Foo"] "Foo" = 0 := by
  refine ⟨rfl, ?_⟩
  have hf : List.filter (fun t => termPresent t (lowerCL (strChars "Foo"))) ["Foo"] = [] := by
    decide
  unfold calculate_term_presence
  rw [if_neg (by simp : ¬(["Foo"] : List String) = [])]
  dsimp only
  rw [hf]
  simp

/-- Claim C7 (amended): calculate_term_presence is always in the interval
from 0 to 1, returns 0 on an empty term set, and returns exactly 1 for a
non-empty term set each of whose terms literally appears in the lowercased
text. -/
theorem calculate_term_presence_bounds (terms : List String) (text : String) :
    0 ≤ calculate_term_presence terms text ∧
      calculate_term_presence terms text ≤ 1 ∧
      (terms = [] → calculate_term_presence terms text = 0) ∧
      (terms ≠ [] →
        (∀ t ∈ terms, containsCL (strChars t) (lowerCL (strChars text)) = true) →
        calculate_term_presence terms text = 1) := by
  unfold calculate_term_presence
  by_cases h : terms = []
  · simp [h]
  · have hlen : 0 < terms.length := List.length_pos.mpr h
    have hlenQ : (0 : ℚ) < (terms.length : ℚ) := by exact_mod_cast hlen
    refine ⟨?_, ?_, fun he => absurd he h, fun _ hall => ?_⟩
    · simp only [if_neg h]
      positivity
    · simp only [if_neg h]
      rw [div_le_one hlenQ]
      exact_mod_cast List.length_filter_le _ _
    · simp only [if_neg h]
      have hfilter :
          terms.filter (fun t => termPresent t (lowerCL (strChars text))) =
            terms := by
        rw [List.filter_eq_self]
        intro t ht
        unfold termPresent
        rw [hall t ht, Bool.or_true]
      rw [hfilter, div_self (ne_of_gt hlenQ)]

/-- Witness for calculate_term_presence_bounds: the empty set gives 0 and
the singleton term foo, present in the lowered text of "Foo", gives 1. -/
theorem calculate_term_presence_bounds_witness :
    calculate_term_presence [] "abc" = 0 ∧
      calculate_term_presence ["foo"] "Foo" = 1 :=
  ⟨(calculate_term_presence_bounds [] "abc").2.2.1 rfl,
   (calculate_term_presence_bounds ["foo"] "Foo").2.2.2 (by simp) (by decide)⟩

/-- Claim C8: the source lowercases the text before the camel-case scan,
so the camel-case run HttpRequest inside XMLHttpRequest is never found:
the whole lowercased identifier is extracted, the lowercased camel run is
not, contradicting the comment above the scan in the source. -/
theorem extract_key_terms_misses_camel_runs :
    "xmlhttprequest" ∈ extract_key_terms "XMLHttpRequest" ∧
      "httprequest" ∉ extract_key_terms "XMLHttpRequest" := by
  decide

/-- Claim C10: assess_task_relevance always returns a value between 0.4
and 1.0, for every list of TDD tests, suggestion code and task
description: every return path yields 1.0, 0.8, 0.7, or a mean clamped
into that interval. -/
theorem assess_task_relevance_range (tdd_tests : List TddTest)
    (suggestion_code task_description : String) :
    0.4 ≤ assess_task_relevance tdd_tests suggestion_code task_description ∧
      assess_task_relevance tdd_tests suggestion_code task_description ≤ 1 := by
  unfold assess_task_relevance
  split
  · norm_num
  · dsimp only
    split
    · norm_num
    · split
      · exact ⟨le_min (by norm_num) (le_max_left _ _), min_le_left _ _⟩
      · norm_num

/-- The error extraction stage changes no counter and not the success
flag. -/
theorem attachErrors_counts (r : TestExecutionResult) :
    (attachErrors r).passed_tests = r.passed_tests ∧
      (attachErrors r).failed_tests = r.failed_tests ∧
      (attachErrors r).total_tests = r.total_tests ∧
      (attachErrors r).success = r.success := by
  unfold attachErrors
  split <;> exact ⟨rfl, rfl, rfl, rfl⟩

/-- The generic fallback stage is skipped when the language stage set a
non-zero total. -/
theorem parseGeneric_skip (out : List Char) (r : TestExecutionResult)
    (h : r.total_tests ≠ 0) : parseGeneric out r = r := by
  unfold parseGeneric
  rw [if_neg h]

/-- Claim C2 is false as stated: for the Jest output reporting three
passed, two failed, four total, parse_test_output copies the three
inconsistent counts verbatim, so passed plus failed differs from the
positive total. -/
theorem parse_test_output_jest_counts_inconsistent :
    (parse_test_output "javascript" "Tests: 3 passed, 2 failed, 4 total" "" "" 0).total_tests = 4 ∧
      (parse_test_output "javascript" "Tests: 3 passed, 2 failed, 4 total" "" "" 0).passed_tests = 3 ∧
      (parse_test_output "javascript" "Tests: 3 passed, 2 failed, 4 total" "" "" 0).failed_tests = 2 ∧
      (parse_test_output "javascript" "Tests: 3 passed, 2 failed, 4 total" "" "" 0).passed_tests +
          (parse_test_output "javascript" "Tests: 3 passed, 2 failed, 4 total" "" "" 0).failed_tests ≠
        (parse_test_output "javascript" "Tests: 3 passed, 2 failed, 4 total" "" "" 0).total_tests := by
  refine ⟨rfl, rfl, rfl, by decide⟩

/-- Claim C2 (amended): when a language-specific summary pattern matches
with a positive reported total, the counters satisfy the claimed
invariants on that branch: for python the total is the sum of the parsed
passed and failed counts and success holds exactly when failed is zero;
for javascript the three counts are copied verbatim (so the sum identity
is not guaranteed) and success holds exactly when the failed count is
zero; for cpp and java the sum identity and the success equivalence
hold. -/
theorem parse_test_output_summary_invariants (output tf ifp : String) (et : ℚ) :
    (∀ p f, searchScan pyPFAt (strChars output) = some (p, f) → 0 < p + f →
      (parse_test_output "python" output tf ifp et).total_tests = (p : Int) + (f : Int) ∧
        (parse_test_output "python" output tf ifp et).passed_tests = (p : Int) ∧
        (parse_test_output "python" output tf ifp et).failed_tests = (f : Int) ∧
        ((parse_test_output "python" output tf ifp et).success = true ↔ f = 0)) ∧
    (∀ p f t, searchScan jsAt (strChars output) = some (p, f, t) → 0 < t →
      (parse_test_output "javascript" output tf ifp et).total_tests = (t : Int) ∧
        (parse_test_output "javascript" output tf ifp et).passed_tests = (p : Int) ∧
        (parse_test_output "javascript" output tf ifp et).failed_tests = (f : Int) ∧
        ((parse_test_output "javascript" output tf ifp et).success = true ↔ f = 0)) ∧
    (∀ t, searchScan cppTotalAt (strChars output) = some t → 0 < t →
      (parse_test_output "cpp" output tf ifp et).passed_tests +
          (parse_test_output "cpp" output tf ifp et).failed_tests =
        (parse_test_output "cpp" output tf ifp et).total_tests ∧
        ((parse_test_output "cpp" output tf ifp et).success = true ↔
          (parse_test_output "cpp" output tf ifp et).failed_tests = 0)) ∧
    (∀ t fa er, searchScan javaAt (strChars output) = some (t, fa, er) → 0 < t →
      (parse_test_output "java" output tf ifp et).passed_tests +
          (parse_test_output "java" output tf ifp et).failed_tests =
        (parse_test_output "java" output tf ifp et).total_tests ∧
        ((parse_test_output "java" output tf ifp et).success = true ↔
          (parse_test_output "java" output tf ifp et).failed_tests = 0)) := by
  refine ⟨?_, ?_, ?_, ?_⟩
  · intro p f hscan hpos
    have h1 : parseLang "python" (strChars output) (initResult output tf ifp et) =
        { initResult output tf ifp et with
            passed_tests := (p : Int), failed_tests := (f : Int),
            total_tests := (p : Int) + (f : Int), success := decide (f = 0) } := by
      unfold parseLang
      rw [if_pos rfl, hscan]
    have h2 : parseGeneric (strChars output)
        ({ initResult output tf ifp et with
            passed_tests := (p : Int), failed_tests := (f : Int),
            total_tests := (p : Int) + (f : Int), success := decide (f = 0) }) =
        { initResult output tf ifp et with
            passed_tests := (p : Int), failed_tests := (f : Int),
            total_tests := (p : Int) + (f : Int), success := decide (f = 0) } :=
      parseGeneric_skip _ _ (by show ((p : Int) + (f : Int)) ≠ 0; omega)
    unfold parse_test_output
    rw [h1, h2]
    obtain ⟨e1, e2, e3, e4⟩ := attachErrors_counts
      ({ initResult output tf ifp et with
          passed_tests := (p : Int), failed_tests := (f : Int),
          total_tests := (p : Int) + (f : Int), success := decide (f = 0) })
    rw [e1, e2, e3, e4]
    exact ⟨rfl, rfl, rfl, by simp⟩
  · intro p f t hscan hpos
    have h1 : parseLang "javascript" (strChars output) (initResult output tf ifp et) =
        { initResult output tf ifp et with
            passed_tests := (p : Int), failed_tests := (f : Int),
            total_tests := (t : Int), success := decide (f = 0) } := by
      unfold parseLang
      rw [if_neg (by decide), if_pos (Or.inl rfl), hscan]
    have h2 : parseGeneric (strChars output)
        ({ initResult output tf ifp et with
            passed_tests := (p : Int), failed_tests := (f : Int),
            total_tests := (t : Int), success := decide (f = 0) }) =
        { initResult output tf ifp et with
            passed_tests := (p : Int), failed_tests := (f : Int),
            total_tests := (t : Int), success := decide (f = 0) } :=
      parseGeneric_skip _ _ (by show ((t : Int)) ≠ 0; omega)
    unfold parse_test_output
    rw [h1, h2]
    obtain ⟨e1, e2, e3, e4⟩ := attachErrors_counts
      ({ initResult output tf ifp et with
          passed_tests := (p : Int), failed_tests := (f : Int),
          total_tests := (t : Int), success := decide (f = 0) })
    rw [e1, e2, e3, e4]
    exact ⟨rfl, rfl, rfl, by simp⟩
  · intro t hscan hpos
    have h1 : parseLang "cpp" (strChars output) (initResult output tf ifp et) =
        { initResult output tf ifp et with
            total_tests := (t : Int),
            passed_tests := ((searchScan cppPassedAt (strChars output)).map Int.ofNat).getD 0,
            failed_tests := (t : Int) -
              ((searchScan cppPassedAt (strChars output)).map Int.ofNat).getD 0,
            success := decide ((t : Int) -
              ((searchScan cppPassedAt (strChars output)).map Int.ofNat).getD 0 = 0) } := by
      unfold parseLang
      rw [if_neg (by decide), if_neg (by decide), if_pos rfl, hscan]
    have h2 : parseGeneric (strChars output)
        ({ initResult output tf ifp et with
            total_tests := (t : Int),
            passed_tests := ((searchScan cppPassedAt (strChars output)).map Int.ofNat).getD 0,
            failed_tests := (t : Int) -
              ((searchScan cppPassedAt (strChars output)).map Int.ofNat).getD 0,
            success := decide ((t : Int) -
              ((searchScan cppPassedAt (strChars output)).map Int.ofNat).getD 0 = 0) }) =
        { initResult output tf ifp et with
            total_tests := (t : Int),
            passed_tests := ((searchScan cppPassedAt (strChars output)).map Int.ofNat).getD 0,
            failed_tests := (t : Int) -
              ((searchScan cppPassedAt (strChars output)).map Int.ofNat).getD 0,
            success := decide ((t : Int) -
              ((searchScan cppPassedAt (strChars output)).map Int.ofNat).getD 0 = 0) } :=
      parseGeneric_skip _ _ (by show ((t : Int)) ≠ 0; omega)
    unfold parse_test_output
    rw [h1, h2]
    obtain ⟨e1, e2, e3, e4⟩ := attachErrors_counts
      ({ initResult output tf ifp et with
          total_tests := (t : Int),
          passed_tests := ((searchScan cppPassedAt (strChars output)).map Int.ofNat).getD 0,
          failed_tests := (t : Int) -
            ((searchScan cppPassedAt (strChars output)).map Int.ofNat).getD 0,
          success := decide ((t : Int) -
            ((searchScan cppPassedAt (strChars output)).map Int.ofNat).getD 0 = 0) })
    rw [e1, e2, e3, e4]
    constructor
    · dsimp only
      omega
    · dsimp only
      simp
  · intro t fa er hscan hpos
    have h1 : parseLang "java" (strChars output) (initResult output tf ifp et) =
        { initResult output tf ifp et with
            total_tests := (t : Int), failed_tests := (fa : Int) + (er : Int),
            passed_tests := (t : Int) - ((fa : Int) + (er : Int)),
            success := decide ((fa : Int) + (er : Int) = 0) } := by
      unfold parseLang
      rw [if_neg (by decide), if_neg (by decide), if_neg (by decide), if_pos rfl, hscan]
    have h2 : parseGeneric (strChars output)
        ({ initResult output tf ifp et with
            total_tests := (t : Int), failed_tests := (fa : Int) + (er : Int),
            passed_tests := (t : Int) - ((fa : Int) + (er : Int)),
            success := decide ((fa : Int) + (er : Int) = 0) }) =
        { initResult output tf ifp et with
            total_tests := (t : Int), failed_tests := (fa : Int) + (er : Int),
            passed_tests := (t : Int) - ((fa : Int) + (er : Int)),
            success := decide ((fa : Int) + (er : Int) = 0) } :=
      parseGeneric_skip _ _ (by show ((t : Int)) ≠ 0; omega)
    unfold parse_test_output
    rw [h1, h2]
    obtain ⟨e1, e2, e3, e4⟩ := attachErrors_counts
      ({ initResult output tf ifp et with
          total_tests := (t : Int), failed_tests := (fa : Int) + (er : Int),
          passed_tests := (t : Int) - ((fa : Int) + (er : Int)),
          success := decide ((fa : Int) + (er : Int) = 0) })
    rw [e1, e2, e3, e4]
    constructor
    · dsimp only
      omega
    · dsimp only
      simp

/-- Witness for parse_test_output_summary_invariants on concrete pytest,
Jest, Google-Test and JUnit outputs. -/
theorem parse_test_output_summary_invariants_witness :
    (parse_test_output "python" "3 passed, 1 failed" "" "" 0).total_tests =
        (3 : Int) + (1 : Int) ∧
      (parse_test_output "javascript" "Tests: 1 passed, 0 failed, 1 total" "" "" 0).total_tests =
        (1 : Int) ∧
      (parse_test_output "cpp" "[==========] 2 tests" "" "" 0).passed_tests +
          (parse_test_output "cpp" "[==========] 2 tests" "" "" 0).failed_tests =
        (parse_test_output "cpp" "[==========] 2 tests" "" "" 0).total_tests ∧
      (parse_test_output "java" "Tests run: 3, Failures: 1, Errors: 0" "" "" 0).passed_tests +
          (parse_test_output "java" "Tests run: 3, Failures: 1, Errors: 0" "" "" 0).failed_tests =
        (parse_test_output "java" "Tests run: 3, Failures: 1, Errors: 0" "" "" 0).total_tests :=
  ⟨((parse_test_output_summary_invariants "3 passed, 1 failed" "" "" 0).1 3 1
      (by decide) (by decide)).1,
   (((parse_test_output_summary_invariants "Tests: 1 passed, 0 failed, 1 total" "" "" 0).2.1 1 0 1
      (by decide) (by decide)).1),
   (((parse_test_output_summary_invariants "[==========] 2 tests" "" "" 0).2.2.1 2
      (by decide) (by decide)).1),
   (((parse_test_output_summary_invariants "Tests run: 3, Failures: 1, Errors: 0" "" "" 0).2.2.2 3 1 0
      (by decide) (by decide)).1)⟩

/-- Claim C9: count_tests returns at least one for every non-empty test
code and every language; the final floor max(1, count) guarantees it even
when no test pattern and no assertion pattern matches. -/
theorem count_tests_floor (test_code language : String) (_h : test_code ≠ "") :
    1 ≤ count_tests test_code language := by
  unfold count_tests
  dsimp only
  exact Nat.le_max_left 1 _

/-- Witness for count_tests_floor on a one-character python input. -/
theorem count_tests_floor_witness :
    ("x" : String) ≠ "" ∧ 1 ≤ count_tests "x" "python" :=
  ⟨by decide, count_tests_floor "x" "python" (by decide)⟩

/-- Claim C3: the metrics dictionary returned by evaluate_test_quality
never holds the key score (its quality is stored under overall_quality),
so the quality score read by simulate_test_execution is always the
default 0.5 and the simulated result is identical for any two values of
the quality metrics: the pass ratio is min(0.95, 0.5 + iteration * 0.1)
regardless of the test code's overall quality, contradicting the claim
that the result is derived from that quality score. -/
theorem simulate_reads_absent_score_key (test_code : String) (v : MainQualityVals) :
    dictFind "score" (evaluate_test_quality_entries test_code v) = none ∧
      simulate_quality_of (evaluate_test_quality_entries test_code v) = 0.5 ∧
      (∀ (w : MainQualityVals) (code2 language : String) (iteration : Nat) (tf ifp : String),
        simulate_test_execution_core (evaluate_test_quality_entries test_code v)
            code2 language iteration tf ifp =
          simulate_test_execution_core (evaluate_test_quality_entries test_code w)
            code2 language iteration tf ifp) := by
  have hnone : ∀ w : MainQualityVals,
      dictFind "score" (evaluate_test_quality_entries test_code w) = none := by
    intro w
    unfold evaluate_test_quality_entries
    split <;> simp [dictFind]
  have hhalf : ∀ w : MainQualityVals,
      simulate_quality_of (evaluate_test_quality_entries test_code w) = 0.5 := by
    intro w
    unfold simulate_quality_of
    rw [hnone w]
  refine ⟨hnone v, hhalf v, ?_⟩
  intro w code2 language iteration tf ifp
  unfold simulate_test_execution_core
  rw [hhalf v, hhalf w]

/-- Claim C5: the ten-character input assert foo passes the minimal
length guard of evaluate_test_quality, yet the readability step raises a
ZeroDivisionError instead of contributing to an overall quality in the
unit interval: its only line has no leading whitespace, so the modal
indent size is zero and the indentation-consistency step takes a size
modulo zero. -/
theorem readability_zero_division_on_unindented_tests :
    ¬("assert foo" = "" ∨ (trimCL (strChars "assert foo")).length < 10) ∧
      calculate_readability "assert foo" "unknown" =
        Except.error "ZeroDivisionError: integer division or modulo by zero" := by
  constructor
  · decide
  · rfl
